import Mathlib

/-!
Shallow embedding of the chem501 telemetry pipeline:
  * `src/mqtt_logger.py` — ingestion: `compute_quality` and the `on_message`
    callback (rolling IAQ buffer, measurement/event inserts);
  * `src/export_run_to_csv.py` — extraction: `pick_latest_exp`, `get_window`
    and `export_run` (run selection, windowing, alignment, CSV assembly,
    snapshot cleanup).
Python floats are idealised as rationals (ℚ); ISO-8601 timestamps, which the
logger emits in one uniform format so that lexicographic and chronological
order agree, are idealised as naturals.
-/

deriving instance DecidableEq for Except

/-- A decoded JSON scalar as it comes out of `json.loads` / `d.get(key)`.
`jbool` is kept separate because Python `bool` is a subclass of `int`
(`isinstance(True, int)` holds and `float(True) = 1.0`). A missing key or a
JSON `null` is represented by `none` at the `Option JVal` level, matching
`d.get(k)` returning `None`. -/
inductive JVal where
  | jint : Int → JVal
  | jfloat : ℚ → JVal
  | jstr : String → JVal
  | jbool : Bool → JVal
deriving DecidableEq, Repr

/-- `isinstance(x, (int, float))` followed by `float(x)`: the numeric value of
a JSON scalar, `none` when it is absent or not numeric. Booleans count as
numeric in Python (`float(True) = 1.0`). -/
def numValue : Option JVal → Option ℚ
  | some (JVal.jint n) => some (n : ℚ)
  | some (JVal.jfloat q) => some q
  | some (JVal.jbool b) => some (if b then 1 else 0)
  | _ => none

/-- `acc is None or (isinstance(acc, int) and acc < 2)` from `compute_quality`.
A Python `bool` passes `isinstance(acc, int)` and compares as 0 or 1, hence
is always `< 2`. -/
def accBelow2 : Option JVal → Bool
  | none => true
  | some (JVal.jint n) => n < 2
  | some (JVal.jbool _) => true
  | some _ => false

/-- `m = sum(buf)/len(buf)` — the mean of the rolling buffer (ℚ division by
zero is 0, which is never hit because the mean is only used when
`len(buf) >= 30`). -/
def bufMean (buf : List ℚ) : ℚ := buf.sum / buf.length

/-- `sum((x-m)**2 for x in buf)/len(buf)` — the population variance of the
buffer. The source compares `sd = variance ** 0.5` against `5.0`; since both
sides are nonnegative, `sd > 5.0` is encoded below as `variance > 25`. -/
def bufVar (buf : List ℚ) : ℚ :=
  (buf.map (fun x => (x - bufMean buf) ^ 2)).sum / buf.length

/-- `compute_quality(acc, buf)` from `src/mqtt_logger.py` lines 37–52. -/
def compute_quality (acc : Option JVal) (buf : List ℚ) : String :=
  if accBelow2 acc then "acc<2"
  else if 30 ≤ buf.length then
    if 25 < bufVar buf then "unstable" else "ok"
  else "ok"

/-- `if len(iaq_buf) > 120: iaq_buf[:] = iaq_buf[-120:]` — keep the most
recent 120 samples. -/
def trimBuf (l : List ℚ) : List ℚ :=
  if 120 < l.length then l.drop (l.length - 120) else l

/-- The decoded `data` payload: each known channel key, absent keys (or JSON
nulls) as `none`. -/
structure Payload where
  iaq : Option JVal := none
  iaq_acc : Option JVal := none
  bvoc_ppm : Option JVal := none
  eco2_ppm : Option JVal := none
  temp_C : Option JVal := none
  rh_pct : Option JVal := none
  press_hPa : Option JVal := none
deriving DecidableEq, Repr

/-- One row of the `measurements` table as inserted by `on_message`
(`exp_id` is fixed for the whole logger session and omitted). -/
structure MeasRow where
  ts_iso : String
  iaq : Option JVal
  iaq_accuracy : Option JVal
  b_voc_eq_ppm : Option JVal
  eco2_ppm : Option JVal
  temp_C : Option JVal
  rh_pct : Option JVal
  press_hPa : Option JVal
  quality_flag : String
deriving DecidableEq, Repr

/-- One row of the `events` table as inserted by `on_message`. -/
structure EventRowL where
  ts_iso : String
  label : String
  value : String
deriving DecidableEq, Repr

/-- The mutable state the `on_message` callback touches: the rolling IAQ
buffer and the two tables it appends to. -/
structure LoggerState where
  iaq_buf : List ℚ
  measurements : List MeasRow
  events : List EventRowL
deriving DecidableEq, Repr

/-- Which of the three subscribed topics a message arrived on; `other` is a
topic matching none of them (the callback then falls through and does
nothing). -/
inductive Topic where
  | status | heartbeat | data | other
deriving DecidableEq, Repr

/-- The `data`-topic branch of `on_message` (`src/mqtt_logger.py` lines
125–141): maintain the rolling buffer (append `float(iaq)` when numeric, trim
to 120), compute the quality flag on the updated buffer, and append exactly
one measurement row storing the raw field values. -/
def handleData (ts : String) (d : Payload) (st : LoggerState) : LoggerState :=
  let buf :=
    match numValue d.iaq with
    | some v => trimBuf (st.iaq_buf ++ [v])
    | none => st.iaq_buf
  let qflag := compute_quality d.iaq_acc buf
  { st with
    iaq_buf := buf
    measurements := st.measurements ++
      [⟨ts, d.iaq, d.iaq_acc, d.bvoc_ppm, d.eco2_ppm, d.temp_C, d.rh_pct,
        d.press_hPa, qflag⟩] }

/-- `on_message` from `src/mqtt_logger.py` lines 90–147 as a state
transition, restricted to the handler's non-raising paths. `rawText` is
`msg.payload.decode("utf-8","ignore")` (never fails); `decoded` is the
outcome of `json.loads` on the payload: `none` when it raised (the `except`
branch prints and returns), `some d` for a decoded key-value document. A
JSON-valid non-document payload is not representable here; the full handler
including that raising path is `on_message_full` below, of which this is the
restriction (see `on_message_full_agrees`). -/
def on_message (topic : Topic) (rawText : String) (decoded : Option Payload)
    (ts : String) (st : LoggerState) : LoggerState :=
  match topic with
  | Topic.status => { st with events := st.events ++ [⟨ts, "status", rawText⟩] }
  | Topic.heartbeat => { st with events := st.events ++ [⟨ts, "heartbeat", rawText⟩] }
  | Topic.data =>
      match decoded with
      | none => st
      | some d => handleData ts d st
  | Topic.other => st

/-- The result of a successful `json.loads`: either a JSON object — a
key-value document, on which `d.get(key)` is defined — or any other JSON
value (`null`, a number, a string, an array), which has no `.get`
attribute. -/
inductive PyJson where
  | obj : Payload → PyJson
  | nonObj : PyJson
deriving DecidableEq, Repr

/-- The full `on_message` handler including its raising path. `decodeResult`
is `none` when `json.loads` raised — only that case reaches the `except`
branch of lines 118–123, which prints and returns — `some (PyJson.obj d)`
for a decoded document, and `some PyJson.nonObj` for a JSON-valid
non-document payload: there `d.get("iaq")` at line 126 raises
`AttributeError`, which propagates out of the handler uncaught
(`Except.error`) and no row is inserted. -/
def on_message_full (topic : Topic) (rawText : String) (decodeResult : Option PyJson)
    (ts : String) (st : LoggerState) : Except String LoggerState :=
  match topic with
  | Topic.status => Except.ok { st with events := st.events ++ [⟨ts, "status", rawText⟩] }
  | Topic.heartbeat => Except.ok { st with events := st.events ++ [⟨ts, "heartbeat", rawText⟩] }
  | Topic.data =>
      match decodeResult with
      | none => Except.ok st
      | some (PyJson.obj d) => Except.ok (handleData ts d st)
      | some PyJson.nonObj => Except.error "AttributeError"
  | Topic.other => Except.ok st

/-! ## Extraction pipeline: `src/export_run_to_csv.py` -/

/-- The minimum of a list of timestamps: the value returned by
`SELECT ts_iso ... ORDER BY ts_iso LIMIT 1` (resp. pandas `.min()`), `none`
on an empty result set. -/
def minTs (l : List Nat) : Option Nat := l.min?

/-- Insertion step of the sort used to model SQL `ORDER BY ts_iso`. -/
def insertByKey {α : Type} (key : α → Nat) (a : α) : List α → List α
  | [] => [a]
  | b :: l => if key a ≤ key b then a :: b :: l else b :: insertByKey key a l

/-- Sort a list of rows ascending by a numeric key — models `ORDER BY ts_iso`
(which row among equal keys comes first is unspecified in SQL; no claim
depends on it). -/
def sortByKey {α : Type} (key : α → Nat) (l : List α) : List α :=
  l.foldr (insertByKey key) []

/-- One row of the `experiments` table as read by the exporter. -/
structure DbExperiment where
  exp_id : String
  date_start : Nat
deriving DecidableEq, Repr

/-- One row of the `measurements` table (full schema of `mqtt_logger.py`;
channel values idealised as rationals, absent as `none`). -/
structure DbMeas where
  exp_id : String
  ts : Nat
  iaq : Option ℚ
  iaq_accuracy : Option Int
  b_voc_eq_ppm : Option ℚ
  eco2_ppm : Option ℚ
  temp_C : Option ℚ
  rh_pct : Option ℚ
  press_hPa : Option ℚ
  quality_flag : String
deriving DecidableEq, Repr

/-- One row of the `events` table. -/
structure DbEvent where
  exp_id : String
  ts : Nat
  label : String
  value : String
deriving DecidableEq, Repr

/-- One row of the `conditions` table (created by the metadata collaborator,
so it may be absent from a given store — `ExpDB.hasCondTable`). -/
structure DbCond where
  exp_id : String
  key : String
  value : String
deriving DecidableEq, Repr

/-- The SQLite store as the exporter sees it. `hasCondTable` records whether
the `conditions` table exists (only `metadata_gui.py` creates it; reading a
missing table raises). -/
structure ExpDB where
  experiments : List DbExperiment
  measurements : List DbMeas
  events : List DbEvent
  conditions : List DbCond
  hasCondTable : Bool := true
deriving DecidableEq, Repr

/-- Python truthiness of an optional string (`if not exp_id:` is taken for
`None` and for the empty string). -/
def optTruthy : Option String → Bool
  | none => false
  | some s => !s.isEmpty

/-- `pick_latest_exp`: `SELECT exp_id FROM experiments ORDER BY date_start
DESC LIMIT 1` — an exp_id of maximal `date_start`, `none` if the table is
empty. -/
def pick_latest_exp (rows : List DbExperiment) : Option String :=
  match rows with
  | [] => none
  | r :: rs =>
    some ((rs.foldl (fun best e => if best.date_start < e.date_start then e else best) r).exp_id)

/-- The timestamps of this run's events carrying a given label (the rows
`WHERE exp_id=? AND label=?` project to). -/
def evTs (db : ExpDB) (eid lab : String) : List Nat :=
  (db.events.filter (fun e => e.exp_id == eid && e.label == lab)).map (fun e => e.ts)

/-- `_first(label)` inside `get_window`: `SELECT ts_iso FROM events WHERE
exp_id=? AND label=? ORDER BY ts_iso LIMIT 1`. -/
def first_event (db : ExpDB) (eid lab : String) : Option Nat :=
  minTs (evTs db eid lab)

/-- The `for lab in ("end_run", "stop_heat")` fallback loop of `get_window`. -/
def fallbackEnd (db : ExpDB) (eid : String) : Option Nat :=
  match first_event db eid "end_run" with
  | some t => some t
  | none => first_event db eid "stop_heat"

/-- `get_window` from `src/export_run_to_csv.py` lines 47–72. The explicit
`end_label` is used only when truthy (`if end_label:`), i.e. present and
nonempty; otherwise the fallback chain runs. -/
def get_window (db : ExpDB) (eid : String) (start_label : String)
    (end_label : Option String) : Option Nat × Option Nat :=
  let t0 := first_event db eid start_label
  let t1 :=
    match end_label with
    | some lab => if lab.isEmpty then fallbackEnd db eid else first_event db eid lab
    | none => fallbackEnd db eid
  (t0, t1)

/-- A measurement row as the exporter's `SELECT ts_iso, temp_C, rh_pct,
press_hPa` reads it. -/
structure SelRow where
  ts : Nat
  temp_C : Option ℚ
  rh_pct : Option ℚ
  press_hPa : Option ℚ
deriving DecidableEq, Repr

/-- The `meas` dataframe: the run's measurement rows, projected to the four
selected columns and sorted by timestamp (`ORDER BY ts_iso`). -/
def loadMeas (db : ExpDB) (eid : String) : List SelRow :=
  sortByKey (fun r => r.ts)
    ((db.measurements.filter (fun r => r.exp_id == eid)).map
      (fun r => (⟨r.ts, r.temp_C, r.rh_pct, r.press_hPa⟩ : SelRow)))

/-- A row of the events CSV (`SELECT ts_iso, label, value`). -/
structure EvRow where
  ts : Nat
  label : String
  value : String
deriving DecidableEq, Repr

/-- The `events` dataframe: the run's events, projected and sorted by
timestamp. -/
def eventsFor (db : ExpDB) (eid : String) : List EvRow :=
  sortByKey (fun e => e.ts)
    ((db.events.filter (fun e => e.exp_id == eid)).map
      (fun e => (⟨e.ts, e.label, e.value⟩ : EvRow)))

/-- A row of the metadata CSV (`SELECT key, value FROM conditions`). -/
structure CondRow where
  key : String
  value : String
deriving DecidableEq, Repr

/-- The `conds` dataframe (no ORDER BY in the source query). -/
def condsFor (db : ExpDB) (eid : String) : List CondRow :=
  (db.conditions.filter (fun c => c.exp_id == eid)).map (fun c => (⟨c.key, c.value⟩ : CondRow))

/-- A row of the measurements CSV: the four selected columns plus the derived
`min_since_start` (minutes, `none` when no alignment reference exists —
pandas NaN). -/
structure OutRow where
  ts : Nat
  temp_C : Option ℚ
  rh_pct : Option ℚ
  press_hPa : Option ℚ
  min_since_start : Option ℚ
deriving DecidableEq, Repr

/-- `cols = ["ts_iso","temp_C","rh_pct","press_hPa","min_since_start"]` from
`src/export_run_to_csv.py` line 146: the column list of the measurements
CSV. -/
def measCsvCols : List String :=
  ["ts_iso", "temp_C", "rh_pct", "press_hPa", "min_since_start"]

/-- The three CSV files `export_run` writes on success. -/
structure ExportOutput where
  measHeader : List String
  measRows : List OutRow
  eventRows : List EvRow
  condRows : List CondRow
deriving DecidableEq, Repr

/-- How the export terminates abnormally: `raise SystemExit(msg)` or any
other uncaught exception (e.g. reading a missing `conditions` table). -/
inductive PyExit where
  | sysExit : String → PyExit
  | exn : String → PyExit
deriving DecidableEq, Repr

/-- The windowing step of `export_run` (lines 114–120): if not full-run
mode, keep the rows with `t0 <= ts` (when `t0` is present) and then those
with `ts <= t1` (when `t1` is present). -/
def windowedMeas (db : ExpDB) (eid start_label : String) (end_label : Option String)
    (full_run : Bool) : List SelRow :=
  let meas := loadMeas db eid
  if full_run then meas
  else
    let w := get_window db eid start_label end_label
    let m1 :=
      match w.1 with
      | some a => meas.filter (fun r => a ≤ r.ts)
      | none => meas
    match w.2 with
    | some b => m1.filter (fun r => r.ts ≤ b)
    | none => m1

/-- The alignment step of `export_run` (lines 122–130): `t0_ev` is the
minimum `ts_iso` among the run's events labelled `start_label` (NaN, i.e.
`none`, when there is none); the fallback is the minimum index of the
already-windowed measurement frame. -/
def t0Align (db : ExpDB) (eid start_label : String) (meas1 : List SelRow) : Option Nat :=
  match minTs (((eventsFor db eid).filter (fun e => e.label == start_label)).map
      (fun e => e.ts)) with
  | some t => some t
  | none => minTs (meas1.map (fun r => r.ts))

/-- The CSV assembly of `export_run` (lines 132–159): the windowed rows with
the derived `min_since_start` column (`(ts - t0_align)/60` seconds→minutes),
restricted to `measCsvCols`; the run's events and conditions unfiltered. -/
def buildOutput (db : ExpDB) (eid start_label : String) (end_label : Option String)
    (full_run : Bool) : ExportOutput :=
  let meas1 := windowedMeas db eid start_label end_label full_run
  let t0_align := t0Align db eid start_label meas1
  { measHeader := measCsvCols
    measRows := meas1.map (fun r =>
      ({ ts := r.ts, temp_C := r.temp_C, rh_pct := r.rh_pct, press_hPa := r.press_hPa,
         min_since_start := t0_align.map (fun a : Nat => ((r.ts : ℚ) - (a : ℚ)) / 60) } : OutRow))
    eventRows := eventsFor db eid
    condRows := condsFor db eid }

/-- The body of `export_run` (`src/export_run_to_csv.py` lines 86–161, the
`try` block): run selection, table reads, windowing, alignment, CSV
assembly. An `Except.error` outcome means the body raised before writing any
file (all three `to_csv` calls come after every raise point). -/
def export_run_body (db : ExpDB) (exp_id : Option String) (start_label : String)
    (end_label : Option String) (full_run : Bool) : Except PyExit ExportOutput :=
  let eid? := if optTruthy exp_id then exp_id else pick_latest_exp db.experiments
  match eid? with
  | none => Except.error (PyExit.sysExit "[error] No experiments found.")
  | some eid =>
    if eid.isEmpty then Except.error (PyExit.sysExit "[error] No experiments found.")
    else if db.hasCondTable = false then
      Except.error (PyExit.exn "no such table: conditions")
    else if (loadMeas db eid).isEmpty then
      Except.error (PyExit.sysExit ("[warn] No measurements for " ++ eid))
    else
      Except.ok (buildOutput db eid start_label end_label full_run)

/-- The run identifier the body settles on: the explicit argument when truthy,
else the latest experiment; `none` when that is absent or empty (the body
then raises `SystemExit`). -/
def resolvedEid (db : ExpDB) (exp_id : Option String) : Option String :=
  match (if optTruthy exp_id then exp_id else pick_latest_exp db.experiments) with
  | some eid => if eid.isEmpty then none else some eid
  | none => none

/-- The I/O circumstances `safe_connect` and the `finally` block depend on:
whether the direct read-only open fails (store exclusively locked, so a
snapshot copy is made) and whether `os.remove` of the snapshot raises. -/
structure IOEnv where
  directOpenFails : Bool
  removeFails : Bool
deriving DecidableEq, Repr

/-- `export_run` with its `safe_connect` prologue and `finally` epilogue
(`src/export_run_to_csv.py` lines 84–170). The second component records
whether a snapshot file is still on disk afterwards: `safe_connect` creates
one exactly when the direct open fails; the `finally` block — run on every
exit path, after `con.close()` — removes it, swallowing any deletion error
(`try: os.remove(snap) except Exception: pass`) so the body's outcome is
returned (or re-raised) unchanged. -/
def export_run (env : IOEnv) (db : ExpDB) (exp_id : Option String)
    (start_label : String) (end_label : Option String) (full_run : Bool) :
    Except PyExit ExportOutput × Bool :=
  let snap := env.directOpenFails
  let result := export_run_body db exp_id start_label end_label full_run
  let snapLeft := if snap then (if env.removeFails then true else false) else false
  (result, snapLeft)

/-! ## Statement vocabulary (worded after the claims, compared against the
code-side definitions above) -/

/-- Claim wording (C4): a timestamp lies in the resolved window — `t0 ≤ t`
when a lower bound exists and `t ≤ t1` when an upper bound exists; an absent
bound imposes no constraint on that side. -/
def inWindowB (t0 t1 : Option Nat) (t : Nat) : Bool :=
  (match t0 with
   | some a => decide (a ≤ t)
   | none => true) &&
  (match t1 with
   | some b => decide (t ≤ b)
   | none => true)

/-- Claim wording (C4): the alignment reference — the earliest event of the
run carrying the configured start label if one exists, else the earliest
timestamp among the retained measurement rows. -/
def alignRefSpec (db : ExpDB) (eid slab : String) (retained : List SelRow) : Option Nat :=
  match minTs (evTs db eid slab) with
  | some t => some t
  | none => minTs (retained.map (fun r => r.ts))

/-- Forget the derived `min_since_start` column of an output row, recovering
the selected measurement row it came from. -/
def stripMss (o : OutRow) : SelRow := ⟨o.ts, o.temp_C, o.rh_pct, o.press_hPa⟩

/-- Claim wording (C5): `t` is the earliest element of a list of event
timestamps. -/
def isEarliest (l : List Nat) (t : Nat) : Prop := t ∈ l ∧ ∀ u ∈ l, t ≤ u

/-- A small concrete store used by witnesses and counterexamples: one run
`e1` with four measurements (the first with a recorded air-quality index and
confidence code), a `start_cook` event at 0 and an `end_run` event at 720
seconds, and one metadata row. -/
def dbW : ExpDB :=
  { experiments := [⟨"e1", 0⟩]
    measurements :=
      [⟨"e1", 0, some 50, some 3, none, none, some 20, some 40, some 1013, "ok"⟩,
       ⟨"e1", 300, some 55, some 3, none, none, some 21, none, none, "ok"⟩,
       ⟨"e1", 600, none, none, none, none, some 22, none, none, "ok"⟩,
       ⟨"e1", 900, none, none, none, none, some 23, none, none, "ok"⟩]
    events := [⟨"e1", 0, "start_cook", ""⟩, ⟨"e1", 720, "end_run", ""⟩]
    conditions := [⟨"e1", "location", "kitchen"⟩]
    hasCondTable := true }

/-! ## Supporting lemmas -/

theorem minTs_eq_none_iff (l : List Nat) : minTs l = none ↔ l = [] :=
  List.min?_eq_none_iff

theorem minTs_eq_some_iff (l : List Nat) (t : Nat) :
    minTs l = some t ↔ t ∈ l ∧ ∀ u ∈ l, t ≤ u :=
  List.min?_eq_some_iff'

theorem minTs_congr {l₁ l₂ : List Nat} (h : ∀ x, x ∈ l₁ ↔ x ∈ l₂) :
    minTs l₁ = minTs l₂ := by
  cases h₁ : minTs l₁ with
  | none =>
    have hl : l₁ = [] := (minTs_eq_none_iff l₁).mp h₁
    subst hl
    rw [eq_comm, minTs_eq_none_iff, List.eq_nil_iff_forall_not_mem]
    intro a ha
    exact (List.not_mem_nil a) ((h a).mpr ha)
  | some t =>
    rw [minTs_eq_some_iff] at h₁
    rw [eq_comm, minTs_eq_some_iff]
    exact ⟨(h t).mp h₁.1, fun u hu => h₁.2 u ((h u).mpr hu)⟩

theorem mem_insertByKey {α : Type} (key : α → Nat) (a x : α) (l : List α) :
    x ∈ insertByKey key a l ↔ x = a ∨ x ∈ l := by
  induction l with
  | nil => simp [insertByKey]
  | cons b l ih =>
    by_cases hb : key a ≤ key b
    · simp [insertByKey, hb]
    · simp only [insertByKey, if_neg hb, List.mem_cons, ih]
      tauto

theorem mem_sortByKey {α : Type} (key : α → Nat) (l : List α) (x : α) :
    x ∈ sortByKey key l ↔ x ∈ l := by
  induction l with
  | nil => simp [sortByKey]
  | cons b l ih =>
    show x ∈ insertByKey key b (sortByKey key l) ↔ _
    rw [mem_insertByKey]
    simp [ih]

theorem mem_eventsFor_ts (db : ExpDB) (eid slab : String) (t : Nat) :
    t ∈ ((eventsFor db eid).filter (fun e => e.label == slab)).map (fun e => e.ts) ↔
      t ∈ evTs db eid slab := by
  simp only [eventsFor, evTs, List.mem_map, List.mem_filter, mem_sortByKey,
    Bool.and_eq_true, beq_iff_eq]
  constructor
  · rintro ⟨ev, ⟨⟨e, ⟨he, heq⟩, rfl⟩, hl⟩, rfl⟩
    exact ⟨e, ⟨he, heq, hl⟩, rfl⟩
  · rintro ⟨e, ⟨he, heq, hl⟩, rfl⟩
    exact ⟨⟨e.ts, e.label, e.value⟩, ⟨⟨e, ⟨he, heq⟩, rfl⟩, hl⟩, rfl⟩

theorem t0Align_eq_alignRefSpec (db : ExpDB) (eid slab : String) (m : List SelRow) :
    t0Align db eid slab m = alignRefSpec db eid slab m := by
  unfold t0Align alignRefSpec
  rw [minTs_congr (fun t => mem_eventsFor_ts db eid slab t)]

theorem bufVar_replicate (k : Nat) (c : ℚ) : bufVar (List.replicate k c) = 0 := by
  cases k with
  | zero => simp [bufVar, bufMean]
  | succ n =>
    have hne : ((n + 1 : Nat) : ℚ) ≠ 0 := Nat.cast_ne_zero.mpr (Nat.succ_ne_zero n)
    have hmean : bufMean (List.replicate (n + 1) c) = c := by
      unfold bufMean
      rw [List.sum_replicate, List.length_replicate, nsmul_eq_mul, mul_comm,
        mul_div_assoc, div_self hne, mul_one]
    unfold bufVar
    rw [hmean]
    simp [List.map_replicate, sub_self]

/-! ## Claims about the ingestion pipeline -/

/-- C1: for every buffer contents and every confidence code (an integer, per
the data model) that is absent or less than 2, `compute_quality` returns
`acc<2`, regardless of the buffer contents (and hence of the current value,
which `compute_quality` does not even receive). -/
theorem compute_quality_low_acc (buf : List ℚ) (acc : Option Int)
    (h : acc = none ∨ ∃ n, acc = some n ∧ n < 2) :
    compute_quality (acc.map JVal.jint) buf = "acc<2" := by
  rcases h with rfl | ⟨n, rfl, hn⟩
  · rfl
  · simp [compute_quality, accBelow2, hn]

/-- Witness for C1 at the concrete code 1 and a nonempty buffer. -/
theorem compute_quality_low_acc_witness :
    compute_quality ((some (1 : Int)).map JVal.jint) [7, 3, 100] = "acc<2" :=
  compute_quality_low_acc [7, 3, 100] (some 1) (Or.inr ⟨1, rfl, by decide⟩)

/-- C9: with an integer confidence code of at least 2, the quality label is
`ok` whenever the buffer holds fewer than 30 entries (never `unstable`); with
at least 30 entries it is `unstable` exactly when the population standard
deviation exceeds 5.0 — encoded as the population variance `bufVar` exceeding
25, equivalent since both sides are nonnegative — and `ok` otherwise; a
constant-value buffer always yields `ok`. -/
theorem compute_quality_stability (n : Int) (buf : List ℚ) (h2 : 2 ≤ n) :
    (buf.length < 30 → compute_quality (some (JVal.jint n)) buf = "ok") ∧
    (30 ≤ buf.length →
      ((compute_quality (some (JVal.jint n)) buf = "unstable" ↔ 25 < bufVar buf) ∧
       (bufVar buf ≤ 25 → compute_quality (some (JVal.jint n)) buf = "ok"))) ∧
    (∀ c : ℚ, buf = List.replicate buf.length c →
      compute_quality (some (JVal.jint n)) buf = "ok") := by
  have hacc : accBelow2 (some (JVal.jint n)) = false := by
    simp [accBelow2]
    omega
  have base : compute_quality (some (JVal.jint n)) buf =
      if 30 ≤ buf.length then (if 25 < bufVar buf then "unstable" else "ok") else "ok" := by
    unfold compute_quality
    rw [hacc]
    simp
  refine ⟨?_, ?_, ?_⟩
  · intro hlen
    rw [base, if_neg (Nat.not_le.mpr hlen)]
  · intro hlen
    constructor
    · by_cases hv : 25 < bufVar buf
      · rw [base, if_pos hlen, if_pos hv]
        simp [hv]
      · rw [base, if_pos hlen, if_neg hv]
        simp [hv]
    · intro hv
      rw [base, if_pos hlen, if_neg (not_lt.mpr hv)]
  · intro c hc
    by_cases hlen : 30 ≤ buf.length
    · have hv : bufVar buf = 0 := by rw [hc]; exact bufVar_replicate _ c
      have h25 : ¬ (25 < bufVar buf) := by rw [hv]; norm_num
      rw [base, if_pos hlen, if_neg h25]
    · rw [base, if_neg hlen]

/-- Witness for C9 at code 2 and a constant 30-entry buffer. -/
theorem compute_quality_stability_witness :
    ((List.replicate 30 (4 : ℚ)).length < 30 →
      compute_quality (some (JVal.jint 2)) (List.replicate 30 (4 : ℚ)) = "ok") ∧
    (30 ≤ (List.replicate 30 (4 : ℚ)).length →
      ((compute_quality (some (JVal.jint 2)) (List.replicate 30 (4 : ℚ)) = "unstable" ↔
          25 < bufVar (List.replicate 30 (4 : ℚ))) ∧
       (bufVar (List.replicate 30 (4 : ℚ)) ≤ 25 →
          compute_quality (some (JVal.jint 2)) (List.replicate 30 (4 : ℚ)) = "ok"))) ∧
    (∀ c : ℚ, List.replicate 30 (4 : ℚ) = List.replicate (List.replicate 30 (4 : ℚ)).length c →
      compute_quality (some (JVal.jint 2)) (List.replicate 30 (4 : ℚ)) = "ok") :=
  compute_quality_stability 2 (List.replicate 30 4) (by decide)

/-- `on_message` is exactly the restriction of the full handler to its
non-raising paths: they agree on parse failures and on document payloads,
for every topic. -/
theorem on_message_full_agrees (t : Topic) (raw ts : String) (st : LoggerState) :
    on_message_full t raw none ts st = Except.ok (on_message t raw none ts st) ∧
    ∀ d, on_message_full t raw (some (PyJson.obj d)) ts st =
      Except.ok (on_message t raw (some d) ts st) := by
  cases t <;> exact ⟨rfl, fun d => rfl⟩

/-- C6 counterexample: the payload `5` is valid JSON but not a structured
document, so it fails to decode as one; yet the handler does not return
normally — `d.get("iaq")` raises `AttributeError`, which propagates. -/
theorem on_message_nondoc_raises_cex :
    on_message_full Topic.data "5" (some PyJson.nonObj) "t" ⟨[], [], []⟩ =
      Except.error "AttributeError" := rfl

/-- C6 (amended): a data-topic message whose payload fails to parse as JSON
(`json.loads` raises) is discarded without raising — no measurement row, no
event row, untouched buffer — and the pipeline continues; but a payload that
parses to a non-document JSON value (`null`, a number, a string, an array)
makes the handler raise `AttributeError` at `d.get`, with no row inserted. -/
theorem on_message_bad_json (raw ts : String) (st : LoggerState) :
    on_message_full Topic.data raw none ts st = Except.ok st ∧
    on_message_full Topic.data raw (some PyJson.nonObj) ts st =
      Except.error "AttributeError" :=
  ⟨rfl, rfl⟩

/-- C3 counterexample: a data message whose confidence code is absent but
whose `iaq` value is numeric does change the rolling buffer. -/
theorem buffer_changes_with_low_acc_cex :
    (on_message Topic.data "" (some { iaq := some (JVal.jfloat 10), iaq_acc := none })
        "2025-01-01T00:00:00+00:00" ⟨[], [], []⟩).iaq_buf ≠
      (⟨[], [], []⟩ : LoggerState).iaq_buf := by decide

/-- C3 (amended): processing a data message appends the current value to the
rolling buffer (trimming to the most recent 120) exactly when that value is
numeric, regardless of the confidence code — the payload `d`, and with it its
`iaq_acc` field, is arbitrary here, so absent, low and high codes alike are
covered; the buffer stays unchanged only when the value is not numeric. -/
theorem buffer_append_ignores_acc (raw ts : String) (st : LoggerState) (d : Payload) :
    (∀ v, numValue d.iaq = some v →
        (on_message Topic.data raw (some d) ts st).iaq_buf = trimBuf (st.iaq_buf ++ [v])) ∧
    (numValue d.iaq = none →
        (on_message Topic.data raw (some d) ts st).iaq_buf = st.iaq_buf) := by
  constructor
  · intro v hv
    simp [on_message, handleData, hv]
  · intro hv
    simp [on_message, handleData, hv]

/-- Witness for the amended C3: a numeric value with an absent code lands in
the buffer. -/
theorem buffer_append_ignores_acc_witness :
    (on_message Topic.data "" (some { iaq := some (JVal.jfloat 10), iaq_acc := none }) "t"
        ⟨[], [], []⟩).iaq_buf = trimBuf ([] ++ [10]) :=
  (buffer_append_ignores_acc "" "t" ⟨[], [], []⟩
      { iaq := some (JVal.jfloat 10), iaq_acc := none }).1 10 (by decide)

/-- C10: a data message that decodes but whose `iaq` is absent or not numeric
still appends exactly one measurement row — the raw field values (missing as
null) plus the quality label computed on the unchanged buffer — and leaves
the buffer and the events table untouched. -/
theorem on_message_nonnumeric_iaq (raw ts : String) (st : LoggerState) (d : Payload)
    (h : numValue d.iaq = none) :
    on_message Topic.data raw (some d) ts st =
      { st with measurements := st.measurements ++
          [⟨ts, d.iaq, d.iaq_acc, d.bvoc_ppm, d.eco2_ppm, d.temp_C, d.rh_pct, d.press_hPa,
            compute_quality d.iaq_acc st.iaq_buf⟩] } := by
  simp [on_message, handleData, h]

/-- Witness for C10: a string-valued `iaq` is stored raw, with the buffer and
events untouched. -/
theorem on_message_nonnumeric_iaq_witness :
    on_message Topic.data "" (some { iaq := some (JVal.jstr "n/a") }) "t" ⟨[], [], []⟩ =
      { iaq_buf := [],
        measurements :=
          [⟨"t", some (JVal.jstr "n/a"), none, none, none, none, none, none, "acc<2"⟩],
        events := [] } :=
  on_message_nonnumeric_iaq "" "t" ⟨[], [], []⟩ { iaq := some (JVal.jstr "n/a") } rfl


/-! ## Claims about the extraction pipeline -/

theorem resolvedEid_some (db : ExpDB) (exp_id : Option String) (eid : String)
    (h : resolvedEid db exp_id = some eid) :
    (if optTruthy exp_id then exp_id else pick_latest_exp db.experiments) = some eid ∧
    eid.isEmpty = false := by
  unfold resolvedEid at h
  cases hs : (if optTruthy exp_id then exp_id else pick_latest_exp db.experiments) with
  | none => rw [hs] at h; simp at h
  | some e =>
    rw [hs] at h
    dsimp only at h
    by_cases he : e.isEmpty = true
    · rw [if_pos he] at h; simp at h
    · rw [if_neg he] at h
      obtain rfl := Option.some.inj h
      exact ⟨rfl, by simpa using he⟩

theorem export_run_body_ok (db : ExpDB) (exp_id : Option String) (slab : String)
    (elb : Option String) (fr : Bool) (out : ExportOutput)
    (h : export_run_body db exp_id slab elb fr = Except.ok out) :
    ∃ eid, resolvedEid db exp_id = some eid ∧ db.hasCondTable = true ∧
      loadMeas db eid ≠ [] ∧ out = buildOutput db eid slab elb fr := by
  unfold export_run_body at h
  cases heid : (if optTruthy exp_id then exp_id else pick_latest_exp db.experiments) with
  | none => rw [heid] at h; simp at h
  | some eid =>
    rw [heid] at h
    dsimp only at h
    by_cases he : eid.isEmpty = true
    · rw [if_pos he] at h; simp at h
    · rw [if_neg he] at h
      by_cases hc : db.hasCondTable = false
      · rw [if_pos hc] at h; simp at h
      · rw [if_neg hc] at h
        by_cases hm : (loadMeas db eid).isEmpty = true
        · rw [if_pos hm] at h; simp at h
        · rw [if_neg hm] at h
          refine ⟨eid, ?_, ?_, ?_, (Except.ok.inj h).symm⟩
          · unfold resolvedEid
            rw [heid]
            dsimp only
            rw [if_neg he]
          · simpa using hc
          · intro hnil
            exact hm (by simp [hnil])

/-- C2 counterexample: a run whose stored measurements do have an air-quality
index and confidence code exports a measurements CSV with none of the
`iaq`, `iaq_accuracy`, `eco2_ppm`, `b_voc_eq_ppm` columns. -/
theorem export_missing_iaq_columns_cex :
    (export_run_body dbW (some "e1") "start_cook" none false).map
      (fun o => o.measHeader.contains "iaq" || o.measHeader.contains "iaq_accuracy" ||
        o.measHeader.contains "eco2_ppm" || o.measHeader.contains "b_voc_eq_ppm") =
      Except.ok false := by decide

/-- C2 (amended): the measurements CSV of every successful export consists of
exactly the timestamp, temperature, relative-humidity and pressure columns
plus the derived `min_since_start` column; the air-quality index, its
confidence code, the equivalent-CO2 and the VOC columns are not exported. -/
theorem export_meas_csv_columns (db : ExpDB) (exp_id : Option String) (slab : String)
    (elb : Option String) (fr : Bool) (out : ExportOutput)
    (h : export_run_body db exp_id slab elb fr = Except.ok out) :
    out.measHeader = ["ts_iso", "temp_C", "rh_pct", "press_hPa", "min_since_start"] ∧
    "iaq" ∉ out.measHeader ∧ "iaq_accuracy" ∉ out.measHeader ∧
    "eco2_ppm" ∉ out.measHeader ∧ "b_voc_eq_ppm" ∉ out.measHeader := by
  obtain ⟨eid, -, -, -, rfl⟩ := export_run_body_ok db exp_id slab elb fr out h
  exact ⟨rfl, (by decide : "iaq" ∉ measCsvCols), (by decide : "iaq_accuracy" ∉ measCsvCols),
    (by decide : "eco2_ppm" ∉ measCsvCols), (by decide : "b_voc_eq_ppm" ∉ measCsvCols)⟩

/-- Witness for the amended C2 on the concrete store `dbW`. -/
theorem export_meas_csv_columns_witness :
    (buildOutput dbW "e1" "start_cook" none false).measHeader =
      ["ts_iso", "temp_C", "rh_pct", "press_hPa", "min_since_start"] ∧
    "iaq" ∉ (buildOutput dbW "e1" "start_cook" none false).measHeader ∧
    "iaq_accuracy" ∉ (buildOutput dbW "e1" "start_cook" none false).measHeader ∧
    "eco2_ppm" ∉ (buildOutput dbW "e1" "start_cook" none false).measHeader ∧
    "b_voc_eq_ppm" ∉ (buildOutput dbW "e1" "start_cook" none false).measHeader :=
  export_meas_csv_columns dbW (some "e1") "start_cook" none false
    (buildOutput dbW "e1" "start_cook" none false) rfl

/-- C7: the export raises `SystemExit` (non-zero outcome) before writing any
file when no run can be resolved, and likewise — with a message naming the
run — when the resolved run has no measurement rows at all; but when the run
has rows, it succeeds and emits the three files (the measurements file
possibly empty after windowing) — the events and metadata content is the
run's full, unwindowed data. -/
theorem export_failure_modes (db : ExpDB) (exp_id : Option String) (slab : String)
    (elb : Option String) (fr : Bool) :
    (optTruthy exp_id = false → pick_latest_exp db.experiments = none →
      export_run_body db exp_id slab elb fr =
        Except.error (PyExit.sysExit "[error] No experiments found.")) ∧
    (∀ eid, resolvedEid db exp_id = some eid → db.hasCondTable = true →
      loadMeas db eid = [] →
      export_run_body db exp_id slab elb fr =
        Except.error (PyExit.sysExit ("[warn] No measurements for " ++ eid))) ∧
    (∀ eid, resolvedEid db exp_id = some eid → db.hasCondTable = true →
      loadMeas db eid ≠ [] →
      export_run_body db exp_id slab elb fr =
        Except.ok (buildOutput db eid slab elb fr) ∧
      (buildOutput db eid slab elb fr).eventRows = eventsFor db eid ∧
      (buildOutput db eid slab elb fr).condRows = condsFor db eid) := by
  refine ⟨?_, ?_, ?_⟩
  · intro h1 h2
    unfold export_run_body
    rw [h1]
    dsimp only
    rw [h2]
    simp
  · intro eid hres hcond hm
    obtain ⟨hs, he⟩ := resolvedEid_some db exp_id eid hres
    unfold export_run_body
    rw [hs]
    dsimp only
    rw [if_neg (by simp [he]), if_neg (by simp [hcond]),
      if_pos (by simp [hm] : (loadMeas db eid).isEmpty = true)]
  · intro eid hres hcond hm
    obtain ⟨hs, he⟩ := resolvedEid_some db exp_id eid hres
    refine ⟨?_, rfl, rfl⟩
    unfold export_run_body
    rw [hs]
    dsimp only
    rw [if_neg (by simp [he]), if_neg (by simp [hcond]),
      if_neg (by simp [hm] : ¬(loadMeas db eid).isEmpty = true)]

/-- Witness for C7: on the concrete store `dbW` the run resolves, has rows,
and the export succeeds with the three outputs. -/
theorem export_failure_modes_witness :
    export_run_body dbW (some "e1") "start_cook" none false =
      Except.ok (buildOutput dbW "e1" "start_cook" none false) ∧
    (buildOutput dbW "e1" "start_cook" none false).eventRows = eventsFor dbW "e1" ∧
    (buildOutput dbW "e1" "start_cook" none false).condRows = condsFor dbW "e1" :=
  (export_failure_modes dbW (some "e1") "start_cook" none false).2.2 "e1"
    (by decide) (by decide) (by decide)

theorem windowedMeas_eq_filter (db : ExpDB) (eid slab : String) (elb : Option String) :
    windowedMeas db eid slab elb false =
      (loadMeas db eid).filter
        (fun r => inWindowB (get_window db eid slab elb).1 (get_window db eid slab elb).2 r.ts) := by
  rcases hw : get_window db eid slab elb with ⟨t0, t1⟩
  simp only [windowedMeas, hw]
  cases t0 <;> cases t1 <;>
    simp [inWindowB, List.filter_filter, Bool.and_comm]

/-- C4: for a run exported by explicit id with full-run mode off, the
retained measurement rows are exactly those of the run whose timestamp lies
in the resolved window (inclusive on both sides, an absent bound
unconstrained), and every output row carries `min_since_start` equal to the
elapsed minutes — `(ts - reference)/60` with timestamps in seconds — from
the alignment reference: the earliest `start_label` event of the run if one
exists, else the earliest retained measurement timestamp. -/
theorem export_window_and_alignment (db : ExpDB) (eid slab : String) (elb : Option String)
    (out : ExportOutput) (hne : eid.isEmpty = false)
    (h : export_run_body db (some eid) slab elb false = Except.ok out) :
    out.measRows.map stripMss =
      (loadMeas db eid).filter
        (fun r => inWindowB (get_window db eid slab elb).1 (get_window db eid slab elb).2 r.ts) ∧
    ∀ o ∈ out.measRows, ∃ a,
      alignRefSpec db eid slab
          ((loadMeas db eid).filter
            (fun r => inWindowB (get_window db eid slab elb).1 (get_window db eid slab elb).2 r.ts)) =
        some a ∧
      o.min_since_start = some (((o.ts : ℚ) - (a : ℚ)) / 60) := by
  obtain ⟨eid2, hres, -, -, rfl⟩ := export_run_body_ok db (some eid) slab elb false out h
  have heid : eid2 = eid := by
    unfold resolvedEid at hres
    rw [if_pos (by simp [optTruthy, hne])] at hres
    dsimp only at hres
    rw [if_neg (by simp [hne])] at hres
    exact (Option.some.inj hres).symm
  subst heid
  have hmap : (buildOutput db eid2 slab elb false).measRows.map stripMss =
      windowedMeas db eid2 slab elb false := by
    show ((windowedMeas db eid2 slab elb false).map _).map stripMss = _
    rw [List.map_map]
    exact List.map_id _
  constructor
  · rw [hmap, windowedMeas_eq_filter]
  · intro o ho
    rw [show (buildOutput db eid2 slab elb false).measRows =
        (windowedMeas db eid2 slab elb false).map (fun r =>
          ({ ts := r.ts, temp_C := r.temp_C, rh_pct := r.rh_pct, press_hPa := r.press_hPa,
             min_since_start := (t0Align db eid2 slab (windowedMeas db eid2 slab elb false)).map
               (fun a : Nat => ((r.ts : ℚ) - (a : ℚ)) / 60) } : OutRow)) from rfl,
      List.mem_map] at ho
    obtain ⟨r, hr, rfl⟩ := ho
    have hne1 : windowedMeas db eid2 slab elb false ≠ [] := by
      intro hnil
      rw [hnil] at hr
      exact (List.not_mem_nil r) hr
    obtain ⟨a, ha⟩ :
        ∃ a, t0Align db eid2 slab (windowedMeas db eid2 slab elb false) = some a := by
      unfold t0Align
      cases hm : minTs (((eventsFor db eid2).filter (fun e => e.label == slab)).map
          (fun e => e.ts)) with
      | some t => exact ⟨t, rfl⟩
      | none =>
        cases hmm : minTs ((windowedMeas db eid2 slab elb false).map (fun r => r.ts)) with
        | some t => exact ⟨t, rfl⟩
        | none =>
          have := (minTs_eq_none_iff _).mp hmm
          rw [List.map_eq_nil_iff] at this
          exact absurd this hne1
    refine ⟨a, ?_, ?_⟩
    · rw [← windowedMeas_eq_filter, ← t0Align_eq_alignRefSpec]
      exact ha
    · show (t0Align db eid2 slab (windowedMeas db eid2 slab elb false)).map
          (fun a0 : Nat => ((r.ts : ℚ) - (a0 : ℚ)) / 60) = _
      rw [ha]
      rfl

/-- Witness for C4 on the concrete store `dbW`. -/
theorem export_window_and_alignment_witness :
    (buildOutput dbW "e1" "start_cook" none false).measRows.map stripMss =
      (loadMeas dbW "e1").filter
        (fun r => inWindowB (get_window dbW "e1" "start_cook" none).1
          (get_window dbW "e1" "start_cook" none).2 r.ts) ∧
    ∀ o ∈ (buildOutput dbW "e1" "start_cook" none false).measRows, ∃ a,
      alignRefSpec dbW "e1" "start_cook"
          ((loadMeas dbW "e1").filter
            (fun r => inWindowB (get_window dbW "e1" "start_cook" none).1
              (get_window dbW "e1" "start_cook" none).2 r.ts)) = some a ∧
      o.min_since_start = some (((o.ts : ℚ) - (a : ℚ)) / 60) :=
  export_window_and_alignment dbW "e1" "start_cook" none
    (buildOutput dbW "e1" "start_cook" none false) (by decide) rfl

/-- C5: `get_window` resolves `t0` to the earliest event timestamp carrying
the start label (absent when none exists) and `t1` to the earliest event
with the explicit end label when a nonempty one is given, else to the first
label of the fallback chain `end_run`, `stop_heat` that has a matching
event, absent when neither does; in particular on events
`[(start_cook, a), (end_run, b)]` it yields `(some a, some b)` and on a lone
`start_cook` it yields `(some a, none)`. -/
theorem get_window_resolution (db : ExpDB) (eid slab : String) (elb : Option String) :
    ((get_window db eid slab elb).1 = none ↔ evTs db eid slab = []) ∧
    (∀ t, (get_window db eid slab elb).1 = some t ↔ isEarliest (evTs db eid slab) t) ∧
    (∀ lab, elb = some lab → lab.isEmpty = false →
      (((get_window db eid slab elb).2 = none ↔ evTs db eid lab = []) ∧
       (∀ t, (get_window db eid slab elb).2 = some t ↔ isEarliest (evTs db eid lab) t))) ∧
    (elb = none →
      ((evTs db eid "end_run" ≠ [] →
        ∀ t, (get_window db eid slab elb).2 = some t ↔
          isEarliest (evTs db eid "end_run") t) ∧
       (evTs db eid "end_run" = [] →
        ∀ t, (get_window db eid slab elb).2 = some t ↔
          isEarliest (evTs db eid "stop_heat") t) ∧
       (evTs db eid "end_run" = [] → evTs db eid "stop_heat" = [] →
        (get_window db eid slab elb).2 = none))) ∧
    (∀ (eid2 : String) (a b : Nat) (v w : String),
      get_window ⟨[], [], [⟨eid2, a, "start_cook", v⟩, ⟨eid2, b, "end_run", w⟩], [], true⟩
        eid2 "start_cook" none = (some a, some b)) ∧
    (∀ (eid2 : String) (a : Nat) (v : String),
      get_window ⟨[], [], [⟨eid2, a, "start_cook", v⟩], [], true⟩ eid2 "start_cook" none =
        (some a, none)) := by
  refine ⟨?_, ?_, ?_, ?_, ?_, ?_⟩
  · show first_event db eid slab = none ↔ _
    exact minTs_eq_none_iff _
  · intro t
    show first_event db eid slab = some t ↔ _
    exact minTs_eq_some_iff _ t
  · rintro lab rfl hlab
    constructor
    · show (if lab.isEmpty = true then fallbackEnd db eid else first_event db eid lab) =
          none ↔ _
      rw [if_neg (by simp [hlab])]
      exact minTs_eq_none_iff _
    · intro t
      show (if lab.isEmpty = true then fallbackEnd db eid else first_event db eid lab) =
          some t ↔ _
      rw [if_neg (by simp [hlab])]
      exact minTs_eq_some_iff _ t
  · rintro rfl
    refine ⟨?_, ?_, ?_⟩
    · intro hne t
      show fallbackEnd db eid = some t ↔ _
      unfold fallbackEnd
      cases hfe : first_event db eid "end_run" with
      | none => exact absurd ((minTs_eq_none_iff _).mp hfe) hne
      | some u =>
        constructor
        · intro hut
          obtain rfl := Option.some.inj hut
          exact (minTs_eq_some_iff _ _).mp hfe
        · intro ht
          have hm : minTs (evTs db eid "end_run") = some t := (minTs_eq_some_iff _ t).mpr ht
          rw [show first_event db eid "end_run" = minTs (evTs db eid "end_run") from rfl,
            hm] at hfe
          exact hfe.symm
    · intro hend t
      show fallbackEnd db eid = some t ↔ _
      unfold fallbackEnd first_event
      rw [hend]
      show minTs (evTs db eid "stop_heat") = some t ↔ _
      exact minTs_eq_some_iff _ t
    · intro hend hstop
      show fallbackEnd db eid = none
      unfold fallbackEnd first_event
      rw [hend, hstop]
      rfl
  · intro eid2 a b v w
    simp [get_window, first_event, fallbackEnd, evTs, minTs, List.min?]
  · intro eid2 a v
    simp [get_window, first_event, fallbackEnd, evTs, minTs, List.min?]

/-- Witness for C5: on `dbW` the fallback chain resolves the window end to
the `end_run` event at 720. -/
theorem get_window_resolution_witness :
    (get_window dbW "e1" "start_cook" none).2 = some 720 ↔
      isEarliest (evTs dbW "e1" "end_run") 720 :=
  ((get_window_resolution dbW "e1" "start_cook" none).2.2.2.1 rfl).1 (by decide) 720

/-- C8: whenever the direct read-only open fails and a snapshot copy is
made, the `finally` block leaves no snapshot file behind whenever deletion
succeeds — on every exit path, since the store contents `db` (and with it a
normal, `SystemExit` or exception outcome of the body) is universally
quantified — and the export outcome is exactly the body's outcome, so a
failing deletion (swallowed by `try/except: pass`) never changes it. -/
theorem export_snapshot_cleanup (env : IOEnv) (db : ExpDB) (exp_id : Option String)
    (slab : String) (elb : Option String) (fr : Bool)
    (hsnap : env.directOpenFails = true) :
    (export_run env db exp_id slab elb fr).2 = env.removeFails ∧
    (env.removeFails = false → (export_run env db exp_id slab elb fr).2 = false) ∧
    (export_run env db exp_id slab elb fr).1 = export_run_body db exp_id slab elb fr := by
  unfold export_run
  rw [hsnap]
  refine ⟨?_, ?_, rfl⟩
  · cases hrf : env.removeFails <;> simp [hrf]
  · intro hrf
    simp [hrf]

/-- Witness for C8: locked store, deletion succeeding, on `dbW`. -/
theorem export_snapshot_cleanup_witness :
    (export_run ⟨true, false⟩ dbW (some "e1") "start_cook" none false).2 =
      (⟨true, false⟩ : IOEnv).removeFails ∧
    ((⟨true, false⟩ : IOEnv).removeFails = false →
      (export_run ⟨true, false⟩ dbW (some "e1") "start_cook" none false).2 = false) ∧
    (export_run ⟨true, false⟩ dbW (some "e1") "start_cook" none false).1 =
      export_run_body dbW (some "e1") "start_cook" none false :=
  export_snapshot_cleanup ⟨true, false⟩ dbW (some "e1") "start_cook" none false rfl
